import Mathlib

/-!
Verification development for the SPCCM bicycle-network optimisation system
(`helper_functions.py`, `raptor_routing.py`, `raptor_mapping.py`,
`transit_stats.py`).  The Python code is shallowly embedded: floats become
exact rationals (`ℚ`), the IEEE special value `inf` used by the Dijkstra
search becomes the constructor `WQ.inf`, and the NaN/±inf values that numpy
means can produce in the scenario comparators become constructors of `QF`.
While-loops are embedded as fuel-indexed recursion; running out of fuel is
marked by a dedicated constructor and never corresponds to a behaviour of
the source, whose loops simply keep running.
-/

/-- Rational extended with the single IEEE special value `float('inf')` that
the Dijkstra implementation manipulates (`distancias` start at `inf`). -/
inductive WQ where
  | fin (q : ℚ)
  | inf
deriving DecidableEq, Repr

/-- Rational addition written through the normalizing smart constructor
`mkRat` so that the kernel can evaluate concrete runs (`Rat.add` itself is
`@[irreducible]`); `qadd_eq_add` proves it is exactly `ℚ` addition. -/
def qadd (a b : ℚ) : ℚ := mkRat (a.num * b.den + b.num * a.den) (a.den * b.den)

theorem qadd_eq_add (a b : ℚ) : qadd a b = a + b := (Rat.add_def' a b).symm

/-- Addition on `WQ`, mirroring float addition where one operand may be
`inf` (the code only ever adds finite weights to finite or inf values). -/
def WQ.add : WQ → WQ → WQ
  | .inf, _ => .inf
  | _, .inf => .inf
  | .fin a, .fin b => .fin (qadd a b)

theorem WQ.add_fin (a b : ℚ) : WQ.add (.fin a) (.fin b) = .fin (a + b) := by
  rw [WQ.add, qadd_eq_add]

/-- The `<` comparison the Python code performs on tentative distances. -/
def WQ.Lt : WQ → WQ → Prop
  | .fin a, .fin b => a < b
  | .fin _, .inf => True
  | .inf, _ => False

instance (a b : WQ) : Decidable (WQ.Lt a b) :=
  match a, b with
  | .fin a, .fin b => inferInstanceAs (Decidable (a < b))
  | .fin _, .inf => .isTrue trivial
  | .inf, .fin _ => .isFalse (fun h => h)
  | .inf, .inf => .isFalse (fun h => h)

theorem WQ.Lt_irrefl (a : WQ) : ¬ WQ.Lt a a := by
  cases a <;> simp [WQ.Lt]

theorem WQ.Lt_trans {a b c : WQ} (hab : WQ.Lt a b) (hbc : WQ.Lt b c) :
    WQ.Lt a c := by
  cases a <;> cases b <;> cases c <;> simp_all [WQ.Lt]
  exact lt_trans hab hbc

theorem WQ.Lt_trichotomy (a b : WQ) : WQ.Lt a b ∨ a = b ∨ WQ.Lt b a := by
  cases a <;> cases b <;> simp [WQ.Lt]
  exact lt_trichotomy _ _

/-- Numpy-style float results of the comparators: a rational, `+inf`,
`-inf`, or NaN (`np.mean` of an empty list is NaN). -/
inductive QF where
  | num (q : ℚ)
  | posInf
  | negInf
  | nan
deriving DecidableEq, Repr

/-- Float subtraction on comparator values (NaN propagates, `inf - inf`
is NaN). -/
def QF.sub : QF → QF → QF
  | .nan, _ => .nan
  | _, .nan => .nan
  | .num a, .num b => .num (a - b)
  | .num _, .posInf => .negInf
  | .num _, .negInf => .posInf
  | .posInf, .num _ => .posInf
  | .posInf, .posInf => .nan
  | .posInf, .negInf => .posInf
  | .negInf, .num _ => .negInf
  | .negInf, .posInf => .negInf
  | .negInf, .negInf => .nan

/-- Float multiplication on comparator values (`inf * 0` is NaN). -/
def QF.mul : QF → QF → QF
  | .nan, _ => .nan
  | _, .nan => .nan
  | .num a, .num b => .num (a * b)
  | .num a, .posInf => if a = 0 then .nan else if 0 < a then .posInf else .negInf
  | .num a, .negInf => if a = 0 then .nan else if 0 < a then .negInf else .posInf
  | .posInf, .num b => if b = 0 then .nan else if 0 < b then .posInf else .negInf
  | .negInf, .num b => if b = 0 then .nan else if 0 < b then .negInf else .posInf
  | .posInf, .posInf => .posInf
  | .posInf, .negInf => .negInf
  | .negInf, .posInf => .negInf
  | .negInf, .negInf => .posInf

/-- Float division on comparator values.  `ℚ` has a single zero, so the
sign of an IEEE zero divisor is not modelled; division of a nonzero finite
value by zero yields the infinity matching the numerator's sign, `0/0` is
NaN, as in numpy. -/
def QF.div : QF → QF → QF
  | .nan, _ => .nan
  | _, .nan => .nan
  | .num a, .num b =>
      if b = 0 then (if a = 0 then .nan else if 0 < a then .posInf else .negInf)
      else .num (a / b)
  | .num _, .posInf => .num 0
  | .num _, .negInf => .num 0
  | .posInf, .num b => if 0 ≤ b then .posInf else .negInf
  | .negInf, .num b => if 0 ≤ b then .negInf else .posInf
  | .posInf, _ => .nan
  | .negInf, _ => .nan

/-- The Python comparison `x > 0` on a float that may be NaN or ±inf
(NaN compares false). -/
def qfPositivo : QF → Bool
  | .num a => decide (0 < a)
  | .posInf => true
  | _ => false

/-- Python's `max(0, x)` on a float: the iteration keeps `0` unless
`x > 0`, so `max(0, nan) = 0` and `max(0, -inf) = 0`. -/
def pyMax0 : QF → QF
  | .num a => .num (max 0 a)
  | .posInf => .posInf
  | .negInf => .num 0
  | .nan => .num 0

/-- A row of the edge table (`enlaces` / `red_ciclovias`): endpoints `A`,
`B` and the raw attributes.  Attributes read through `Series.get(key,
default)` in the source are `Option`s; `longitud` is accessed directly
(`enlace['longitud']`) and is therefore always present. -/
structure Enlace where
  A : ℕ
  B : ℕ
  longitud : ℚ
  tipo_infraestructura : Option ℤ
  pendiente : Option ℚ
  volumen_vehicular : Option ℚ
  velocidad_vehicular : Option ℚ
deriving DecidableEq, Repr

/-- `ConfiguracionOptimizacion` from `helper_functions.py`. -/
structure ConfiguracionOptimizacion where
  coeficiente_seguridad : ℚ
  coeficiente_pendiente : ℚ
  coeficiente_trafico : ℚ
  coeficiente_velocidad : ℚ
  velocidad_promedio_bicicleta : ℚ
  umbral_caminata : ℚ
  velocidad_caminata : ℚ
deriving DecidableEq, Repr

/-- The dataclass defaults of `ConfiguracionOptimizacion`. -/
def configPorDefecto : ConfiguracionOptimizacion :=
  ⟨0.3, 0.05, 0.0001, 0.01, 15, 500, 5⟩

/-- `SistemaOptimizacionCiclovias._obtener_factor_seguridad`: dictionary
lookup `{1: 0.1, 2: 0.3, 3: 0.6, 4: 0.9}.get(tipo, 0.6)`. -/
def obtener_factor_seguridad (tipo_infra : ℤ) : ℚ :=
  if tipo_infra = 1 then 0.1
  else if tipo_infra = 2 then 0.3
  else if tipo_infra = 3 then 0.6
  else if tipo_infra = 4 then 0.9
  else 0.6

/-- `SistemaOptimizacionCiclovias._calcular_impedancia_multicriterio`
(variant 1, network preprocessing): all-positive adjustment factors. -/
def calcular_impedancia_multicriterio (config : ConfiguracionOptimizacion)
    (enlace : Enlace) : ℚ :=
  let distancia_km := enlace.longitud / 1000
  let tiempo_base := distancia_km / config.velocidad_promedio_bicicleta * 60
  let factor_seguridad := obtener_factor_seguridad (enlace.tipo_infraestructura.getD 3)
  let factor_pendiente := config.coeficiente_pendiente * |enlace.pendiente.getD 0|
  let factor_trafico := config.coeficiente_trafico * enlace.volumen_vehicular.getD 0
  let factor_velocidad := config.coeficiente_velocidad *
    max 0 (enlace.velocidad_vehicular.getD 0 - 30)
  let factores_totales := factor_seguridad + factor_pendiente + factor_trafico +
    factor_velocidad
  tiempo_base * (1 + factores_totales)

/-- `RuteadorCicloviasSPCCM._calcular_impedancia_segmento` (variant 2,
route search): signed infrastructure adjustment; the vehicle-speed
attribute defaults to 30 here (not 0). -/
def calcular_impedancia_segmento (velocidad_bicicleta : ℚ) (enlace : Enlace) : ℚ :=
  let distancia_km := enlace.longitud / 1000
  let tiempo_base := distancia_km / velocidad_bicicleta * 60
  let tipo_infra := enlace.tipo_infraestructura.getD 3
  let ajuste_infra : ℚ :=
    if tipo_infra = 1 then -0.3
    else if tipo_infra = 2 then -0.1
    else if tipo_infra = 3 then 0.3
    else 0.6
  let factores_ajuste := ajuste_infra
    + 0.05 * |enlace.pendiente.getD 0|
    + 0.0001 * enlace.volumen_vehicular.getD 0
    + 0.01 * max 0 (enlace.velocidad_vehicular.getD 30 - 30)
  tiempo_base * (1 + factores_ajuste)

/-- The safety lookup exactly as the specification words it: 1→0.1,
2→0.3, 3→0.6, 4→0.9, anything else falls back to 0.6. -/
def factorSeguridadSegunSpec (tipo : ℤ) : ℚ :=
  if tipo = 1 then 0.1
  else if tipo = 2 then 0.3
  else if tipo = 3 then 0.6
  else if tipo = 4 then 0.9
  else 0.6

/-- Variant-1 impedance exactly as the specification words it:
`base_time * (1 + F)` with
`F = safety + slope_coef*|slope| + traffic_coef*volume +
speed_coef*max(0, speed - 30)`. -/
def impedanciaSegunSpec (config : ConfiguracionOptimizacion) (enlace : Enlace) : ℚ :=
  let base_time := enlace.longitud / 1000 / config.velocidad_promedio_bicicleta * 60
  let F := factorSeguridadSegunSpec (enlace.tipo_infraestructura.getD 3)
    + config.coeficiente_pendiente * |enlace.pendiente.getD 0|
    + config.coeficiente_trafico * enlace.volumen_vehicular.getD 0
    + config.coeficiente_velocidad * max 0 (enlace.velocidad_vehicular.getD 0 - 30)
  base_time * (1 + F)

/-- The concrete segment of the specification's worked example:
length 1000 m, segregated infrastructure, flat, no traffic, 30 km/h. -/
def enlaceEjemplo : Enlace := ⟨0, 1, 1000, some 1, some 0, some 0, some 30⟩

/-- Claim C1: the variant-1 (network-preprocessing) impedance equals
`base_time * (1 + F)` with the fixed safety lookup 1→0.1, 2→0.3, 3→0.6,
4→0.9 (fallback 0.6), and on the spec's concrete segment (length 1000 m,
infra 1, slope 0, traffic 0, vehicle speed 30, bike speed 15) it is
exactly 4.4 minutes. -/
theorem impedancia_multicriterio_segun_spec :
    (∀ (config : ConfiguracionOptimizacion) (enlace : Enlace),
      calcular_impedancia_multicriterio config enlace = impedanciaSegunSpec config enlace)
    ∧ calcular_impedancia_multicriterio configPorDefecto enlaceEjemplo = 22 / 5 := by
  constructor
  · intro config enlace
    rfl
  · norm_num [calcular_impedancia_multicriterio, obtener_factor_seguridad,
      configPorDefecto, enlaceEjemplo]

/-- The zero-length connector segment used to witness claim C9. -/
def enlaceCero : Enlace := ⟨0, 1, 0, none, none, none, none⟩

/-- Claim C9: a segment with `length_m = 0` has impedance 0 under both
weighting variants (all-positive network-preprocessing variant and signed
route-search variant). -/
theorem impedancia_longitud_cero (config : ConfiguracionOptimizacion)
    (velocidad_bicicleta : ℚ) (enlace : Enlace) (h : enlace.longitud = 0) :
    calcular_impedancia_multicriterio config enlace = 0 ∧
    calcular_impedancia_segmento velocidad_bicicleta enlace = 0 := by
  unfold calcular_impedancia_multicriterio calcular_impedancia_segmento
  rw [h]
  simp

/-- Claim C9 witness: the zero-length connector evaluated concretely. -/
theorem impedancia_longitud_cero_witness :
    calcular_impedancia_multicriterio configPorDefecto enlaceCero = 0 ∧
    calcular_impedancia_segmento 15 enlaceCero = 0 :=
  impedancia_longitud_cero configPorDefecto 15 enlaceCero rfl

/-- A weighted directed edge of the cyclist graph: target node plus the
`weight` (impedance) and `length` attributes the code reads back. -/
structure Arista where
  destino : ℕ
  weight : WQ
  length : ℚ
deriving DecidableEq, Repr

/-- The networkx `DiGraph` as an insertion-ordered adjacency list: node
identifiers are the `int` node ids the source's type hints use. -/
structure Grafo where
  adj : List (ℕ × List Arista)
deriving DecidableEq, Repr

/-- Node set of the graph (`grafo.nodes`). -/
def Grafo.nodos (g : Grafo) : List ℕ := g.adj.map (·.1)

/-- `grafo[nodo]`: adjacency lookup, `none` models the `KeyError`
networkx raises for a node that is not in the graph. -/
def Grafo.vecinos (g : Grafo) (nodo : ℕ) : Option (List Arista) :=
  (g.adj.find? (fun p => p.1 == nodo)).map (·.2)

/-- `grafo.has_edge(a, b)`. -/
def Grafo.hasEdge (g : Grafo) (a b : ℕ) : Bool :=
  match g.vecinos a with
  | none => false
  | some aristas => aristas.any (·.destino == b)

/-- `grafo[a][b]`: the edge-attribute record between two nodes. -/
def Grafo.datosArista (g : Grafo) (a b : ℕ) : Option Arista :=
  (g.vecinos a).bind (List.find? (·.destino == b))

/-- A single directed edge exists from `a` to `b`. -/
def Edge (g : Grafo) (a b : ℕ) : Prop :=
  ∃ e ∈ (g.vecinos a).getD [], e.destino = b

/-- Directed reachability along graph edges. -/
def Reaches (g : Grafo) : ℕ → ℕ → Prop :=
  Relation.ReflTransGen (Edge g)

/-- The strict order on `(distancia, nodo)` pairs that Python's `heapq`
uses when it compares heap entries (tuple comparison: distance first,
then node id). -/
def claveMenor (a b : WQ × ℕ) : Prop :=
  WQ.Lt a.1 b.1 ∨ (a.1 = b.1 ∧ a.2 < b.2)

instance (a b : WQ × ℕ) : Decidable (claveMenor a b) := by
  unfold claveMenor
  infer_instance

/-- Minimum of a nonempty bag of heap entries under `claveMenor`. -/
def menorDeCola (x : WQ × ℕ) (xs : List (WQ × ℕ)) : WQ × ℕ :=
  xs.foldl (fun acc y => if claveMenor y acc then y else acc) x

/-- `heapq.heappop`: extracts an entry with the least `(distancia, nodo)`
key.  Equal entries are indistinguishable tuples, so removing the first
occurrence of the minimum is extensionally the heap behaviour. -/
def popMin : List (WQ × ℕ) → Option ((WQ × ℕ) × List (WQ × ℕ))
  | [] => none
  | x :: xs =>
    let m := menorDeCola x xs
    some (m, (x :: xs).erase m)

/-- Mutable state of `_dijkstra_ciclista`: the `distancias` and
`predecesores` dictionaries (as total functions, matching `dict.get`
observations) and the priority queue. -/
structure EstadoDijkstra where
  distancias : ℕ → WQ
  predecesores : ℕ → Option ℕ
  cola : List (WQ × ℕ)

/-- Initial state: every distance `inf` except the origin at 0, no
predecessors, queue `[(0, origen)]`. -/
def estadoInicial (origen : ℕ) : EstadoDijkstra :=
  ⟨fun v => if v = origen then .fin 0 else .inf, fun _ => none, [(.fin 0, origen)]⟩

/-- One relaxation of the inner `for vecino, atributos in ...` loop body:
update distance, predecessor and queue only on a strict improvement. -/
def relajar (distancia_actual : WQ) (nodo_actual : ℕ) (s : EstadoDijkstra)
    (e : Arista) : EstadoDijkstra :=
  let nueva_distancia := distancia_actual.add e.weight
  if WQ.Lt nueva_distancia (s.distancias e.destino) then
    ⟨fun v => if v = e.destino then nueva_distancia else s.distancias v,
     fun v => if v = e.destino then some nodo_actual else s.predecesores v,
     s.cola ++ [(nueva_distancia, e.destino)]⟩
  else s

/-- Outcome of the `while cola_prioridad:` loop. -/
inductive ResultadoBucle where
  | fin (s : EstadoDijkstra)
  | errorClave (nodo : ℕ)
  | sinCombustible

/-- The `while cola_prioridad:` loop of `_dijkstra_ciclista`, fuel-indexed.
`errorClave` is the `KeyError` from `self.grafo_ciclista[nodo_actual]`
when the node is absent; `sinCombustible` only marks exhausted fuel. -/
def dijkstraLoop (g : Grafo) (destino : ℕ) : ℕ → EstadoDijkstra → ResultadoBucle
  | 0, _ => .sinCombustible
  | fuel + 1, s =>
    match popMin s.cola with
    | none => .fin s
    | some ((distancia_actual, nodo_actual), resto) =>
      if nodo_actual = destino then .fin { s with cola := resto }
      else if WQ.Lt (s.distancias nodo_actual) distancia_actual then
        dijkstraLoop g destino fuel { s with cola := resto }
      else
        match g.vecinos nodo_actual with
        | none => .errorClave nodo_actual
        | some aristas =>
          dijkstraLoop g destino fuel
            (aristas.foldl (relajar distancia_actual nodo_actual) { s with cola := resto })

/-- The `while actual is not None:` accumulation of `_reconstruir_ruta`,
fuel-indexed (`none` marks exhausted fuel only). -/
def cadenaPredecesores (predecesores : ℕ → Option ℕ) :
    ℕ → Option ℕ → List ℕ → Option (List ℕ)
  | _, none, ruta => some ruta
  | 0, some _, _ => none
  | fuel + 1, some actual, ruta =>
    cadenaPredecesores predecesores fuel (predecesores actual) (ruta ++ [actual])

/-- `_reconstruir_ruta`: walk the predecessor map from the destination and
reverse the accumulated list. -/
def reconstruir_ruta (predecesores : ℕ → Option ℕ) (fuel destino : ℕ) :
    Option (List ℕ) :=
  (cadenaPredecesores predecesores fuel (some destino) []).map List.reverse

/-- Result of one `_dijkstra_ciclista` call. -/
inductive ResultadoDijkstra where
  | ok (ruta : List ℕ) (impedancia : WQ)
  | errorClave (nodo : ℕ)
  | sinCombustible
deriving DecidableEq, Repr

/-- `SistemaOptimizacionCiclovias._dijkstra_ciclista`: run the loop, then
reconstruct the route and read `distancias.get(destino, inf)`. -/
def dijkstra_ciclista (g : Grafo) (origen destino : ℕ) (fuel : ℕ) :
    ResultadoDijkstra :=
  match dijkstraLoop g destino fuel (estadoInicial origen) with
  | .errorClave nodo => .errorClave nodo
  | .sinCombustible => .sinCombustible
  | .fin s =>
    match reconstruir_ruta s.predecesores fuel destino with
    | none => .sinCombustible
    | some ruta => .ok ruta (s.distancias destino)

theorem claveMenor_irrefl (a : WQ × ℕ) : ¬ claveMenor a a := by
  rintro (h | ⟨-, h⟩)
  · exact WQ.Lt_irrefl _ h
  · exact lt_irrefl _ h

theorem claveMenor_trans {a b c : WQ × ℕ} (hab : claveMenor a b)
    (hbc : claveMenor b c) : claveMenor a c := by
  rcases hab with h1 | ⟨e1, h1⟩ <;> rcases hbc with h2 | ⟨e2, h2⟩
  · exact Or.inl (WQ.Lt_trans h1 h2)
  · exact Or.inl (by rw [← e2]; exact h1)
  · exact Or.inl (by rw [e1]; exact h2)
  · exact Or.inr ⟨e1.trans e2, lt_trans h1 h2⟩

theorem claveMenor_trichotomy (x y : WQ × ℕ) :
    claveMenor x y ∨ x = y ∨ claveMenor y x := by
  rcases WQ.Lt_trichotomy x.1 y.1 with h | h | h
  · exact Or.inl (Or.inl h)
  · rcases lt_trichotomy x.2 y.2 with h2 | h2 | h2
    · exact Or.inl (Or.inr ⟨h, h2⟩)
    · refine Or.inr (Or.inl ?_)
      cases x; cases y; simp_all
    · exact Or.inr (Or.inr (Or.inr ⟨h.symm, h2⟩))
  · exact Or.inr (Or.inr (Or.inl h))

theorem claveMenor_resolve {a b c : WQ × ℕ} (hab : claveMenor a b)
    (hcb : ¬ claveMenor c b) : claveMenor a c := by
  rcases claveMenor_trichotomy c b with h | h | h
  · exact absurd h hcb
  · rw [← h] at hab; exact hab
  · exact claveMenor_trans hab h

theorem menorDeCola_mem (xs : List (WQ × ℕ)) :
    ∀ x, menorDeCola x xs = x ∨ menorDeCola x xs ∈ xs := by
  induction xs with
  | nil => intro x; exact Or.inl rfl
  | cons y ys ih =>
    intro x
    have hrw : menorDeCola x (y :: ys) =
        menorDeCola (if claveMenor y x then y else x) ys := rfl
    rw [hrw]
    rcases ih (if claveMenor y x then y else x) with h | h
    · rw [h]
      by_cases hc : claveMenor y x
      · rw [if_pos hc]; exact Or.inr (List.mem_cons_self y ys)
      · rw [if_neg hc]; exact Or.inl rfl
    · exact Or.inr (List.mem_cons_of_mem _ h)

theorem menorDeCola_min (xs : List (WQ × ℕ)) :
    ∀ x y, y ∈ x :: xs → ¬ claveMenor y (menorDeCola x xs) := by
  induction xs with
  | nil =>
    intro x y hy hlt
    rw [List.mem_singleton] at hy
    subst hy
    exact claveMenor_irrefl _ hlt
  | cons z zs ih =>
    intro x y hy
    have hrw : menorDeCola x (z :: zs) =
        menorDeCola (if claveMenor z x then z else x) zs := rfl
    rw [hrw]
    by_cases hc : claveMenor z x
    · rw [if_pos hc]
      rcases List.mem_cons.mp hy with rfl | hy2
      · intro hlt
        exact ih z z (List.mem_cons_self z zs) (claveMenor_trans hc hlt)
      · exact ih z y hy2
    · rw [if_neg hc]
      rcases List.mem_cons.mp hy with rfl | hy2
      · exact ih y y (List.mem_cons_self y zs)
      · rcases List.mem_cons.mp hy2 with rfl | hy3
        · intro hlt
          exact hc (claveMenor_resolve hlt (ih x x (List.mem_cons_self x zs)))
        · exact ih x y (List.mem_cons_of_mem x hy3)

theorem popMin_spec (l : List (WQ × ℕ)) (m : WQ × ℕ) (resto : List (WQ × ℕ))
    (h : popMin l = some (m, resto)) :
    m ∈ l ∧ (∀ x ∈ l, ¬ claveMenor x m) ∧ resto = l.erase m := by
  cases l with
  | nil => simp [popMin] at h
  | cons x xs =>
    simp only [popMin, Option.some.injEq, Prod.mk.injEq] at h
    obtain ⟨hm, hr⟩ := h
    subst hm
    refine ⟨?_, ?_, hr.symm⟩
    · rcases menorDeCola_mem xs x with h | h
      · rw [h]; exact List.mem_cons_self x xs
      · exact List.mem_cons_of_mem _ h
    · exact fun y hy => menorDeCola_min xs x y hy

/-- Loop invariant of the Dijkstra search: every node with a finite
distance, every node with a predecessor, and every queued node is
reachable from the origin. -/
def InvarianteAlcance (g : Grafo) (origen : ℕ) (s : EstadoDijkstra) : Prop :=
  (∀ v, s.distancias v ≠ .inf → Reaches g origen v) ∧
  (∀ v, s.predecesores v ≠ none → Reaches g origen v) ∧
  (∀ p ∈ s.cola, Reaches g origen p.2)

theorem invariante_inicial (g : Grafo) (origen : ℕ) :
    InvarianteAlcance g origen (estadoInicial origen) := by
  refine ⟨?_, ?_, ?_⟩
  · intro v hv
    by_cases h : v = origen
    · subst h; exact Relation.ReflTransGen.refl
    · simp [estadoInicial, h] at hv
  · intro v hv
    simp [estadoInicial] at hv
  · intro p hp
    simp only [estadoInicial, List.mem_singleton] at hp
    subst hp
    exact Relation.ReflTransGen.refl

theorem relajar_invariante (g : Grafo) (origen nodo_actual : ℕ) (d : WQ)
    (hreach : Reaches g origen nodo_actual) (e : Arista)
    (hedge : Edge g nodo_actual e.destino) (s : EstadoDijkstra)
    (hs : InvarianteAlcance g origen s) :
    InvarianteAlcance g origen (relajar d nodo_actual s e) := by
  obtain ⟨h1, h2, h3⟩ := hs
  simp only [relajar]
  split
  · refine ⟨?_, ?_, ?_⟩
    · intro v hv
      by_cases hveq : v = e.destino
      · subst hveq; exact Relation.ReflTransGen.tail hreach hedge
      · apply h1; simpa [hveq] using hv
    · intro v hv
      by_cases hveq : v = e.destino
      · subst hveq; exact Relation.ReflTransGen.tail hreach hedge
      · apply h2; simpa [hveq] using hv
    · intro p hp
      rcases List.mem_append.mp hp with hp | hp
      · exact h3 p hp
      · rw [List.mem_singleton] at hp
        subst hp
        exact Relation.ReflTransGen.tail hreach hedge
  · exact ⟨h1, h2, h3⟩

theorem foldl_relajar_invariante (g : Grafo) (origen nodo_actual : ℕ) (d : WQ)
    (hreach : Reaches g origen nodo_actual) :
    ∀ (aristas : List Arista), (∀ e ∈ aristas, Edge g nodo_actual e.destino) →
      ∀ s, InvarianteAlcance g origen s →
        InvarianteAlcance g origen (aristas.foldl (relajar d nodo_actual) s) := by
  intro aristas
  induction aristas with
  | nil => intro _ s hs; exact hs
  | cons e es ih =>
    intro hedges s hs
    exact ih (fun x hx => hedges x (List.mem_cons_of_mem _ hx)) _
      (relajar_invariante g origen nodo_actual d hreach e
        (hedges e (List.mem_cons_self _ _)) s hs)

theorem dijkstraLoop_invariante (g : Grafo) (origen destino : ℕ) :
    ∀ (fuel : ℕ) (s : EstadoDijkstra), InvarianteAlcance g origen s →
      ∀ s', dijkstraLoop g destino fuel s = .fin s' →
        InvarianteAlcance g origen s' := by
  intro fuel
  induction fuel with
  | zero => intro s _ s' h; simp [dijkstraLoop] at h
  | succ fuel ih =>
    intro s hs s' h
    simp only [dijkstraLoop] at h
    cases hpop : popMin s.cola with
    | none =>
      simp only [hpop] at h
      cases h
      exact hs
    | some par =>
      obtain ⟨⟨d, n⟩, resto⟩ := par
      simp only [hpop] at h
      have hspec := popMin_spec _ _ _ hpop
      have hreach : Reaches g origen n := hs.2.2 _ hspec.1
      have hsub : InvarianteAlcance g origen { s with cola := resto } := by
        refine ⟨hs.1, hs.2.1, ?_⟩
        intro p hp
        apply hs.2.2
        rw [hspec.2.2] at hp
        exact List.mem_of_mem_erase hp
      by_cases hdest : n = destino
      · rw [if_pos hdest] at h
        cases h
        exact hsub
      · rw [if_neg hdest] at h
        by_cases hstale : WQ.Lt (s.distancias n) d
        · rw [if_pos hstale] at h
          exact ih _ hsub _ h
        · rw [if_neg hstale] at h
          cases hvec : g.vecinos n with
          | none => rw [hvec] at h; cases h
          | some aristas =>
            rw [hvec] at h
            refine ih _ (foldl_relajar_invariante g origen n d hreach aristas ?_ _ hsub) _ h
            intro e he
            refine ⟨e, ?_, rfl⟩
            rw [hvec]
            simpa using he

theorem reconstruir_sin_predecesor (predecesores : ℕ → Option ℕ) (fuel destino : ℕ)
    (hpred : predecesores destino = none) (hfuel : fuel ≠ 0) :
    reconstruir_ruta predecesores fuel destino = some [destino] := by
  cases fuel with
  | zero => exact absurd rfl hfuel
  | succ f =>
    simp only [reconstruir_ruta, cadenaPredecesores, hpred]
    rfl

/-- Claim C2 (amended theorem): whenever the destination is unreachable
from the origin and the search terminates normally, the cost is `inf` and
the returned route is the one-node list `[destino]` — a route of fewer
than 2 nodes, treated as empty/invalid and carrying no metrics — and no
error is raised. -/
theorem dijkstra_destino_inalcanzable (g : Grafo) (origen destino fuel : ℕ)
    (hun : ¬ Reaches g origen destino) (ruta : List ℕ) (c : WQ)
    (hrun : dijkstra_ciclista g origen destino fuel = .ok ruta c) :
    c = .inf ∧ ruta = [destino] := by
  unfold dijkstra_ciclista at hrun
  cases hloop : dijkstraLoop g destino fuel (estadoInicial origen) with
  | errorClave n =>
    simp only [hloop] at hrun
    exact absurd hrun (by simp)
  | sinCombustible =>
    simp only [hloop] at hrun
    exact absurd hrun (by simp)
  | fin s =>
    simp only [hloop] at hrun
    have hinv := dijkstraLoop_invariante g origen destino fuel _
      (invariante_inicial g origen) s hloop
    have hdist : s.distancias destino = .inf := by
      by_contra hne
      exact hun (hinv.1 destino hne)
    have hpred : s.predecesores destino = none := by
      cases hp : s.predecesores destino with
      | none => rfl
      | some u => exact absurd (hinv.2.1 destino (by rw [hp]; simp)) hun
    cases fuel with
    | zero => simp [dijkstraLoop] at hloop
    | succ f =>
      rw [reconstruir_sin_predecesor s.predecesores (f + 1) destino hpred
        (Nat.succ_ne_zero f)] at hrun
      simp only [ResultadoDijkstra.ok.injEq] at hrun
      obtain ⟨h1, h2⟩ := hrun
      exact ⟨h2 ▸ hdist, h1.symm⟩

/-- Two isolated nodes: node 1 is in the graph but unreachable from 0. -/
def gSolo : Grafo := ⟨[(0, []), (1, [])]⟩

theorem gSolo_sin_aristas (a b : ℕ) : ¬ Edge gSolo a b := by
  rintro ⟨e, he, -⟩
  cases hf : gSolo.adj.find? (fun p => p.1 == a) with
  | none => simp [Grafo.vecinos, hf] at he
  | some par =>
    have hmem := List.mem_of_find?_eq_some hf
    simp only [gSolo, List.mem_cons, List.mem_singleton, List.not_mem_nil,
      or_false] at hmem
    rcases hmem with rfl | rfl <;> simp [Grafo.vecinos, hf] at he

theorem gSolo_alcanza_eq (a b : ℕ) (h : Reaches gSolo a b) : a = b := by
  induction h with
  | refl => rfl
  | tail _ hedge _ => exact absurd hedge (gSolo_sin_aristas _ _)

theorem gSolo_inalcanzable : ¬ Reaches gSolo 0 1 := by
  intro h
  exact absurd (gSolo_alcanza_eq 0 1 h) (by decide)

/-- Claim C2 (counterexample): on the two-node edgeless graph, the search
from 0 to the unreachable node 1 returns cost `inf` together with the
ONE-node route `[1]` — not a sequence of zero nodes as the claim states. -/
theorem dijkstra_inalcanzable_contraejemplo :
    dijkstra_ciclista gSolo 0 1 3 = .ok [1] .inf ∧ ([1] : List ℕ) ≠ [] :=
  ⟨by decide, by decide⟩

/-- Claim C2 (witness): the amended theorem applied to the concrete
two-node edgeless graph. -/
theorem dijkstra_destino_inalcanzable_witness :
    WQ.inf = WQ.inf ∧ ([1] : List ℕ) = [1] :=
  dijkstra_destino_inalcanzable gSolo 0 1 3 gSolo_inalcanzable [1] .inf (by decide)

/-- Diamond graph for the tie-break analysis: from node 0 the edge to
node 2 is inserted BEFORE the edge to node 1; both two-hop paths 0-2-3
and 0-1-3 cost 2. -/
def gDiamante : Grafo :=
  ⟨[(0, [⟨2, .fin 1, 1⟩, ⟨1, .fin 1, 1⟩]),
    (1, [⟨3, .fin 1, 1⟩]),
    (2, [⟨3, .fin 1, 1⟩]),
    (3, [])]⟩

/-- Claim C4 (counterexample): on the diamond graph the candidate through
node 2 is enqueued first, yet the returned tied-cost route is `[0, 1, 3]`
through the smaller node id 1 — enqueue order does not decide the tie. -/
theorem dijkstra_desempate_contraejemplo :
    dijkstra_ciclista gDiamante 0 3 10 = .ok [0, 1, 3] (.fin 2) ∧
    ([0, 1, 3] : List ℕ) ≠ [0, 2, 3] :=
  ⟨by decide, by decide⟩

/-- Claim C4 (amended theorem): the priority queue pops a lexicographically
least `(distance, node)` entry — equal distances are resolved by the
smaller node id, matching Python tuple comparison in `heapq`, not by
insertion order; an equal (non-smaller) tentative distance never displaces
the stored distance/predecessor, so the first relaxation wins; on the
concrete diamond graph the tied route therefore goes through the
smaller-id node 1 even though node 2 was enqueued first. -/
theorem dijkstra_desempate_por_nodo :
    (∀ (l : List (WQ × ℕ)) (m : WQ × ℕ) (resto : List (WQ × ℕ)),
      popMin l = some (m, resto) → m ∈ l ∧ ∀ x ∈ l, ¬ claveMenor x m) ∧
    (∀ (d : WQ) (nodo_actual : ℕ) (s : EstadoDijkstra) (e : Arista),
      ¬ WQ.Lt (d.add e.weight) (s.distancias e.destino) →
      relajar d nodo_actual s e = s) ∧
    dijkstra_ciclista gDiamante 0 3 10 = .ok [0, 1, 3] (.fin 2) := by
  refine ⟨?_, ?_, by decide⟩
  · intro l m resto h
    have hs := popMin_spec l m resto h
    exact ⟨hs.1, hs.2.1⟩
  · intro d nodo_actual s e h
    simp only [relajar]
    rw [if_neg h]

/-- Claim C4 (witness): the pop-minimality and no-displacement parts of the
amended theorem applied at concrete inputs; node 2 was pushed before node 1
with the same distance 1, yet the popped minimum is the node-1 entry. -/
theorem dijkstra_desempate_por_nodo_witness :
    ((WQ.fin 1, 1) ∈ [(WQ.fin 1, 2), (WQ.fin 1, 1)] ∧
      ∀ x ∈ [(WQ.fin 1, 2), (WQ.fin 1, 1)], ¬ claveMenor x (WQ.fin 1, 1)) ∧
    relajar (WQ.fin 0) 2 (estadoInicial 5) ⟨5, WQ.fin 0, 0⟩ = estadoInicial 5 :=
  ⟨dijkstra_desempate_por_nodo.1 [(WQ.fin 1, 2), (WQ.fin 1, 1)] (WQ.fin 1, 1)
      [(WQ.fin 1, 2)] (by decide),
    dijkstra_desempate_por_nodo.2.1 (WQ.fin 0) 2 (estadoInicial 5)
      ⟨5, WQ.fin 0, 0⟩ (by decide)⟩

/-- The consecutive node pairs `for i in range(len(ruta) - 1)` iterates. -/
def paresConsecutivos : List ℕ → List (ℕ × ℕ)
  | a :: b :: resto => (a, b) :: paresConsecutivos (b :: resto)
  | _ => []

/-- One entry of the `segmentos` list in the helper-module route metrics. -/
structure SegmentoH where
  nodo_inicio : ℕ
  nodo_fin : ℕ
  impedancia : WQ
deriving DecidableEq, Repr

/-- The dictionary `SistemaOptimizacionCiclovias._calcular_metricas_ruta`
returns for a route of at least two nodes. -/
structure MetricasH where
  distancia_total : ℚ
  num_segmentos : ℕ
  segmentos : List SegmentoH
deriving DecidableEq, Repr

/-- `SistemaOptimizacionCiclovias._calcular_metricas_ruta`: `none` models
the empty dictionary returned for routes of fewer than two nodes; each
consecutive pair contributes only when the directed edge exists. -/
def calcular_metricas_ruta_h (g : Grafo) (ruta : List ℕ) : Option MetricasH :=
  if ruta.length < 2 then none
  else
    let acumulado := (paresConsecutivos ruta).foldl
      (fun (acc : ℚ × List SegmentoH) p =>
        match g.datosArista p.1 p.2 with
        | some arista => (acc.1 + arista.length, acc.2 ++ [⟨p.1, p.2, arista.weight⟩])
        | none => acc)
      (0, [])
    some ⟨acumulado.1, acumulado.2.length, acumulado.2⟩

/-- One element of the `resultados` list built by the batch loop. -/
structure Resultado where
  origen : String
  destino : String
  ruta_optima : List ℕ
  impedancia_total : WQ
  metricas : Option MetricasH
deriving DecidableEq, Repr

/-- `SistemaOptimizacionCiclovias.ejecutar_optimizacion_rutas`: the batch
loop over OD pairs.  `nodos_snapped.get` is the snapping-map lookup; the
guard `if not nodo_origen or not nodo_destino: continue` fires on a
missing entry AND on the falsy int node id 0 (Python truthiness on the
`int`-typed node ids of the source).  Exceptions from the Dijkstra call
(`errorClave`) are caught by the `try/except` and the pair is skipped.
`none` propagates only the fuel-exhaustion artefact of the embedding. -/
def ejecutar_optimizacion_rutas (g : Grafo) (nodos_snapped : String → Option ℕ)
    (fuel : ℕ) : List (String × String) → Option (List Resultado)
  | [] => some []
  | (origen, destino) :: resto =>
    match nodos_snapped origen, nodos_snapped destino with
    | some nodo_origen, some nodo_destino =>
      if nodo_origen = 0 ∨ nodo_destino = 0 then
        ejecutar_optimizacion_rutas g nodos_snapped fuel resto
      else
        match dijkstra_ciclista g nodo_origen nodo_destino fuel with
        | .ok ruta_optima impedancia =>
          (ejecutar_optimizacion_rutas g nodos_snapped fuel resto).map
            (fun rs => ⟨origen, destino, ruta_optima, impedancia,
              calcular_metricas_ruta_h g ruta_optima⟩ :: rs)
        | .errorClave _ => ejecutar_optimizacion_rutas g nodos_snapped fuel resto
        | .sinCombustible => none
    | _, _ => ejecutar_optimizacion_rutas g nodos_snapped fuel resto

/-- Single-node graph used for the missing-endpoint scenarios. -/
def gFaltante : Grafo := ⟨[(0, [])]⟩

/-- Claim C3 (counterexample): destination node 5 is absent from the
graph, yet the search does NOT fail: it returns the normal unreachable
outcome `([5], inf)` and no error identifying the missing endpoint. -/
theorem busqueda_destino_faltante_contraejemplo :
    dijkstra_ciclista gFaltante 0 5 3 = .ok [5] .inf ∧
    dijkstra_ciclista gFaltante 0 5 3 ≠ .errorClave 5 ∧
    dijkstra_ciclista gFaltante 0 5 3 ≠ .errorClave 0 :=
  ⟨by decide, by decide, by decide⟩

/-- Claim C3 (amended theorem): only a missing ORIGIN makes the search
fail, with a `KeyError` naming that origin, and the batch loop catches
the failure, skips the pair and continues with the remaining pairs; a
missing destination raises nothing — concretely, searching for the
absent node 5 succeeds with the unreachable outcome `([5], inf)`. -/
theorem origen_faltante_error_y_lote :
    (∀ (g : Grafo) (origen destino fuel : ℕ),
      origen ∉ g.nodos → origen ≠ destino →
      dijkstra_ciclista g origen destino (fuel + 1) = .errorClave origen) ∧
    (∀ (g : Grafo) (nodos_snapped : String → Option ℕ) (fuel : ℕ)
        (o d : String) (resto : List (String × String)) (no nd m : ℕ),
      nodos_snapped o = some no → nodos_snapped d = some nd →
      ¬ (no = 0 ∨ nd = 0) →
      dijkstra_ciclista g no nd fuel = .errorClave m →
      ejecutar_optimizacion_rutas g nodos_snapped fuel ((o, d) :: resto) =
        ejecutar_optimizacion_rutas g nodos_snapped fuel resto) ∧
    dijkstra_ciclista gFaltante 0 5 3 = .ok [5] .inf := by
  refine ⟨?_, ?_, by decide⟩
  · intro g origen destino fuel h hne
    have hfind : g.adj.find? (fun p => p.1 == origen) = none := by
      rw [List.find?_eq_none]
      intro x hx
      simp only [beq_iff_eq]
      intro hx1
      exact h (hx1 ▸ List.mem_map_of_mem (·.1) hx)
    have hvec : g.vecinos origen = none := by
      unfold Grafo.vecinos
      rw [hfind]
      rfl
    have hpop : popMin [(WQ.fin 0, origen)] = some ((WQ.fin 0, origen), []) := by
      simp [popMin, menorDeCola]
    unfold dijkstra_ciclista
    simp only [dijkstraLoop, estadoInicial, hpop, if_neg hne]
    rw [if_neg (by simp [WQ.Lt])]
    rw [hvec]
  · intro g nodos_snapped fuel o d resto no nd m ho hd hcond hdij
    simp only [ejecutar_optimizacion_rutas, ho, hd, if_neg hcond, hdij]

/-- Snapping map used by the claim C3 witness: the origin snaps to node 7,
which is not a node of `gFaltante`. -/
def snapEjemplo : String → Option ℕ :=
  fun s => if s = "A" then some 7 else if s = "B" then some 1 else none

/-- Claim C3 (witness): the amended theorem applied concretely — origin
node 7 absent from the single-node graph produces the error naming 7, and
the batch drops the pair and continues. -/
theorem origen_faltante_error_y_lote_witness :
    dijkstra_ciclista gFaltante 7 0 (0 + 1) = .errorClave 7 ∧
    ejecutar_optimizacion_rutas gFaltante snapEjemplo 4 [("A", "B")] =
      ejecutar_optimizacion_rutas gFaltante snapEjemplo 4 [] :=
  ⟨origen_faltante_error_y_lote.1 gFaltante 7 0 0 (by decide) (by decide),
   origen_faltante_error_y_lote.2.1 gFaltante snapEjemplo 4 "A" "B" [] 7 1 7
     (by decide) (by decide) (by decide) (by decide)⟩

/-- Claim C10: an OD pair whose snapped origin or destination is missing
from the snapping map OR maps to the falsy node id 0 is dropped from the
batch exactly as a missing node would be: the loop continues with the
remaining pairs and the pair contributes no result, even when node 0
exists in the graph. -/
theorem od_falsy_omitido (g : Grafo) (nodos_snapped : String → Option ℕ)
    (fuel : ℕ) (origen destino : String) (resto : List (String × String))
    (h : nodos_snapped origen = none ∨ nodos_snapped origen = some 0 ∨
         nodos_snapped destino = none ∨ nodos_snapped destino = some 0) :
    ejecutar_optimizacion_rutas g nodos_snapped fuel ((origen, destino) :: resto) =
      ejecutar_optimizacion_rutas g nodos_snapped fuel resto := by
  rcases h with h | h | h | h
  · cases hd : nodos_snapped destino <;>
      simp [ejecutar_optimizacion_rutas, h, hd]
  · cases hd : nodos_snapped destino <;>
      simp [ejecutar_optimizacion_rutas, h, hd]
  · cases ho : nodos_snapped origen <;>
      simp [ejecutar_optimizacion_rutas, h, ho]
  · cases ho : nodos_snapped origen <;>
      simp [ejecutar_optimizacion_rutas, h, ho]

/-- Snapping map for the claim C10 witness: "A" maps to the falsy node id
0, which IS a node of the diamond graph with outgoing edges. -/
def snapCero : String → Option ℕ :=
  fun s => if s = "A" then some 0 else if s = "B" then some 3 else none

/-- Claim C10 (witness): the pair ("A", "B") snaps to nodes 0 and 3, both
present and connected in the diamond graph, yet the batch drops it because
node id 0 is falsy. -/
theorem od_falsy_omitido_witness :
    ejecutar_optimizacion_rutas gDiamante snapCero 10 [("A", "B")] =
      ejecutar_optimizacion_rutas gDiamante snapCero 10 [] :=
  od_falsy_omitido gDiamante snapCero 10 "A" "B" []
    (Or.inr (Or.inl (by decide)))

/-- The fields of an optimization-result record that the scenario
comparators read: `r['impedancia_total']` (possibly `inf` for an
unreachable pair) and `r['metricas']['distancia_total']`. -/
structure ResultadoComparacion where
  impedancia_total : WQ
  distancia_total : ℚ
deriving DecidableEq, Repr

/-- `np.mean` over the `impedancia_total` column of a batch: NaN on an
empty batch, `+inf` if any impedance is infinite. -/
def mediaImpedancias (l : List ResultadoComparacion) : QF :=
  match l with
  | [] => .nan
  | _ =>
    match (l.map (·.impedancia_total)).foldl WQ.add (.fin 0) with
    | .inf => .posInf
    | .fin s => .num (s / l.length)

/-- `np.mean` over the `distancia_total` column of a batch: NaN on an
empty batch. -/
def mediaDistancias (l : List ResultadoComparacion) : QF :=
  match l with
  | [] => .nan
  | _ => .num ((l.map (·.distancia_total)).foldl (· + ·) 0 / l.length)

/-- The dictionary `comparar_escenarios` returns. -/
structure MetricasComparativas where
  reduccion_impedancia : QF
  porcentaje_desvio : QF
  impedancia_promedio_base : QF
  impedancia_promedio_optimizada : QF
  distancia_promedio_base : QF
  distancia_promedio_optimizada : QF
deriving DecidableEq, Repr

/-- `SistemaOptimizacionCiclovias.comparar_escenarios`
(helper_functions.py): unguarded means and percentage formulas; nothing is
raised on an empty batch — the means are simply NaN. -/
def comparar_escenarios (escenario_base resultados_optimizacion :
    List ResultadoComparacion) : MetricasComparativas :=
  let impedancia_base := mediaImpedancias escenario_base
  let impedancia_optimizada := mediaImpedancias resultados_optimizacion
  let reduccion_impedancia :=
    ((impedancia_base.sub impedancia_optimizada).div impedancia_base).mul (.num 100)
  let distancia_base := mediaDistancias escenario_base
  let distancia_optimizada := mediaDistancias resultados_optimizacion
  let porcentaje_desvio :=
    ((distancia_optimizada.sub distancia_base).div distancia_base).mul (.num 100)
  ⟨reduccion_impedancia, porcentaje_desvio, impedancia_base,
    impedancia_optimizada, distancia_base, distancia_optimizada⟩

/-- `AnalizadorEstadisticoCiclovias._calcular_reduccion_impedancia`
(transit_stats.py): same percentage formula but guarded by
`if impedancia_base > 0` and CLAMPED with `max(0, reduccion)` —
"No permitir valores negativos" in the source. -/
def calcular_reduccion_impedancia (resultados_optimizados escenario_base :
    List ResultadoComparacion) : QF :=
  let impedancia_base := mediaImpedancias escenario_base
  let impedancia_optimizada := mediaImpedancias resultados_optimizados
  if qfPositivo impedancia_base then
    pyMax0 (((impedancia_base.sub impedancia_optimizada).div impedancia_base).mul
      (.num 100))
  else .num 0

/-- The fields of a routing result read by
`RuteadorCicloviasSPCCM.comparar_escenarios_ruteo`. -/
structure ResultadoRuteo where
  impedancia_total : WQ
  porcentaje_infra_segura : ℚ
deriving DecidableEq, Repr

/-- `np.mean` over the `impedancia_total` column of routing results. -/
def mediaImpedanciasRuteo (l : List ResultadoRuteo) : QF :=
  match l with
  | [] => .nan
  | _ =>
    match (l.map (·.impedancia_total)).foldl WQ.add (.fin 0) with
    | .inf => .posInf
    | .fin s => .num (s / l.length)

/-- The dictionary `comparar_escenarios_ruteo` returns when the optimized
batch is nonempty; `reduccion_impedancia` is present only when the
baseline batch is nonempty. -/
structure MetricasRuteo where
  reduccion_impedancia : Option QF
  porcentaje_seguridad_promedio : QF
  total_rutas_optimizadas : ℕ
deriving DecidableEq, Repr

/-- `RuteadorCicloviasSPCCM.comparar_escenarios_ruteo` (raptor_routing.py):
returns the empty dictionary (`none`) when the optimized batch is empty,
omits the reduction metric when the baseline is empty, and guards the
division with `if impedancia_base > 0 else 0`; nothing is ever raised. -/
def comparar_escenarios_ruteo (resultados_ruteo escenario_base :
    List ResultadoRuteo) : Option MetricasRuteo :=
  match resultados_ruteo with
  | [] => none
  | _ =>
    let reduccion : Option QF :=
      match escenario_base with
      | [] => none
      | _ =>
        let impedancia_base := mediaImpedanciasRuteo escenario_base
        let impedancia_optimizada := mediaImpedanciasRuteo resultados_ruteo
        some (if qfPositivo impedancia_base then
          ((impedancia_base.sub impedancia_optimizada).div impedancia_base).mul
            (.num 100)
        else .num 0)
    let porcentaje_seguridad : QF :=
      .num ((resultados_ruteo.map (·.porcentaje_infra_segura)).foldl (· + ·) 0 /
        resultados_ruteo.length)
    some ⟨reduccion, porcentaje_seguridad, resultados_ruteo.length⟩

/-- One-element baseline/optimized batches with impedances 1 and 2. -/
def loteBase : List ResultadoComparacion := [⟨.fin 1, 0⟩]

/-- Optimized batch whose mean impedance (2) exceeds the baseline's (1). -/
def loteOptimizado : List ResultadoComparacion := [⟨.fin 2, 0⟩]

/-- Claim C5 (counterexample): with baseline mean 1 and optimized mean 2
the formula gives −100, but `transit_stats._calcular_reduccion_impedancia`
clamps the result to 0 — the returned value is neither negative nor equal
to the formula value. -/
theorem reduccion_recortada_contraejemplo :
    calcular_reduccion_impedancia loteOptimizado loteBase = .num 0 ∧
    QF.num 0 ≠ QF.num (-100) := by
  constructor
  · norm_num [calcular_reduccion_impedancia, mediaImpedancias, loteBase,
      loteOptimizado, WQ.add_fin, qfPositivo, QF.sub, QF.div, QF.mul, pyMax0]
  · norm_num

/-- Claim C5 (amended theorem): `comparar_escenarios` in helper_functions
returns the unclamped `(mean_base − mean_opt) / mean_base × 100`, which is
negative whenever the optimized mean exceeds the (positive) baseline mean;
`transit_stats._calcular_reduccion_impedancia` instead clamps with
`max(0, ·)`: every finite value it returns is nonnegative. -/
theorem reduccion_impedancia_sin_recorte :
    (∀ (escenario_base resultados_optimizacion : List ResultadoComparacion)
        (mb mo : ℚ),
      mediaImpedancias escenario_base = .num mb →
      mediaImpedancias resultados_optimizacion = .num mo → 0 < mb →
      (comparar_escenarios escenario_base resultados_optimizacion).reduccion_impedancia
          = .num ((mb - mo) / mb * 100) ∧
        (mb < mo → (mb - mo) / mb * 100 < 0)) ∧
    (∀ (resultados_optimizados escenario_base : List ResultadoComparacion) (q : ℚ),
      calcular_reduccion_impedancia resultados_optimizados escenario_base = .num q →
      0 ≤ q) := by
  constructor
  · intro escenario_base resultados_optimizacion mb mo hb ho hpos
    constructor
    · simp only [comparar_escenarios, hb, ho, QF.sub, QF.div, QF.mul,
        if_neg (ne_of_gt hpos)]
    · intro hlt
      have hneg : (mb - mo) / mb < 0 :=
        div_neg_of_neg_of_pos (by linarith) hpos
      nlinarith
  · intro resultados_optimizados escenario_base q h
    simp only [calcular_reduccion_impedancia] at h
    by_cases hp : qfPositivo (mediaImpedancias escenario_base) = true
    · rw [if_pos hp] at h
      cases hX : ((mediaImpedancias escenario_base).sub
          (mediaImpedancias resultados_optimizados)).div
          (mediaImpedancias escenario_base) |>.mul (.num 100) with
      | num a =>
        rw [hX] at h
        simp only [pyMax0, QF.num.injEq] at h
        subst h
        exact le_max_left 0 a
      | posInf => rw [hX] at h; exact absurd h (by simp [pyMax0])
      | negInf =>
        rw [hX] at h
        simp only [pyMax0, QF.num.injEq] at h
        subst h
        exact le_refl 0
      | nan =>
        rw [hX] at h
        simp only [pyMax0, QF.num.injEq] at h
        subst h
        exact le_refl 0
    · rw [if_neg hp] at h
      simp only [QF.num.injEq] at h
      subst h
      exact le_refl 0

/-- Claim C5 (witness): the amended theorem applied to the concrete
one-element batches with means 1 and 2: the helper comparator yields
−100 < 0, while the transit variant yields the clamped 0 ≥ 0. -/
theorem reduccion_impedancia_sin_recorte_witness :
    ((comparar_escenarios loteBase loteOptimizado).reduccion_impedancia =
        .num (((1 : ℚ) - 2) / 1 * 100) ∧
      ((1 : ℚ) < 2 → ((1 : ℚ) - 2) / 1 * 100 < 0)) ∧
    (0 : ℚ) ≤ 0 :=
  ⟨reduccion_impedancia_sin_recorte.1 loteBase loteOptimizado 1 2
      (by norm_num [mediaImpedancias, loteBase, WQ.add_fin])
      (by norm_num [mediaImpedancias, loteOptimizado, WQ.add_fin])
      (by norm_num),
    reduccion_impedancia_sin_recorte.2 loteOptimizado loteBase 0
      (by norm_num [calcular_reduccion_impedancia, mediaImpedancias, loteBase,
        loteOptimizado, WQ.add_fin, qfPositivo, QF.sub, QF.div, QF.mul, pyMax0])⟩

/-- Claim C6 (counterexample): handing both comparators empty batches
raises nothing: `comparar_escenarios` returns a report whose six fields
are all NaN (the undefined means and ratios), and
`comparar_escenarios_ruteo` returns the empty dictionary — there is no
`EmptyBatchError` anywhere in the code. -/
theorem lote_vacio_contraejemplo :
    comparar_escenarios [] [] = ⟨.nan, .nan, .nan, .nan, .nan, .nan⟩ ∧
    comparar_escenarios_ruteo [] [] = none := by
  constructor
  · rfl
  · rfl

/-- Claim C6 (amended theorem): an empty batch is not an error anywhere:
whenever either batch is empty, helper_functions' `comparar_escenarios`
still returns a report, with the NaN impedance-reduction statistic;
raptor_routing's `comparar_escenarios_ruteo` returns the empty dictionary
whenever the optimized batch is empty, and merely omits the reduction
metric when only the baseline batch is empty. -/
theorem lote_vacio_sin_error :
    (∀ (escenario_base resultados_optimizacion : List ResultadoComparacion),
      escenario_base = [] ∨ resultados_optimizacion = [] →
      (comparar_escenarios escenario_base resultados_optimizacion).reduccion_impedancia
        = .nan) ∧
    (∀ (escenario_ruteo : List ResultadoRuteo),
      comparar_escenarios_ruteo [] escenario_ruteo = none) ∧
    (∀ (r : ResultadoRuteo) (rs : List ResultadoRuteo) (m : MetricasRuteo),
      comparar_escenarios_ruteo (r :: rs) [] = some m →
      m.reduccion_impedancia = none) := by
  refine ⟨?_, fun _ => rfl, ?_⟩
  · intro escenario_base resultados_optimizacion h
    rcases h with h | h
    · subst h
      simp only [comparar_escenarios, mediaImpedancias, QF.sub, QF.div, QF.mul]
    · subst h
      simp only [comparar_escenarios]
      cases hb : mediaImpedancias escenario_base with
      | num q => simp only [mediaImpedancias, QF.sub, QF.div, QF.mul]
      | posInf => simp only [mediaImpedancias, QF.sub, QF.div, QF.mul]
      | negInf => simp only [mediaImpedancias, QF.sub, QF.div, QF.mul]
      | nan => simp only [mediaImpedancias, QF.sub, QF.div, QF.mul]
  · intro r rs m h
    simp only [comparar_escenarios_ruteo, Option.some.injEq] at h
    rw [← h]

/-- Routing result used to instantiate the claim C6 witness. -/
def resultadoRuteoEjemplo : ResultadoRuteo := ⟨.fin 1, 0⟩

/-- Claim C6 (witness): the amended theorem applied to concretely empty
batches: NaN reduction from the helper comparator, empty dictionary from
the raptor comparator, and an omitted reduction metric for a nonempty
optimized batch against an empty baseline. -/
theorem lote_vacio_sin_error_witness :
    (comparar_escenarios [] loteOptimizado).reduccion_impedancia = .nan ∧
    (⟨none, .num 0, 1⟩ : MetricasRuteo).reduccion_impedancia = none :=
  ⟨lote_vacio_sin_error.1 [] loteOptimizado (Or.inl rfl),
    lote_vacio_sin_error.2.2 resultadoRuteoEjemplo [] ⟨none, .num 0, 1⟩
      (by norm_num [comparar_escenarios_ruteo, resultadoRuteoEjemplo])⟩

/-- `RuteadorCicloviasSPCCM._obtener_enlace_entre_nodos`: first row of the
edge table matching the node pair in either direction. -/
def obtener_enlace_entre_nodos (nodo_inicio nodo_fin : ℕ) (red : List Enlace) :
    Option Enlace :=
  red.find? (fun e => (e.A == nodo_inicio && e.B == nodo_fin) ||
    (e.A == nodo_fin && e.B == nodo_inicio))

/-- One entry of the `segmentos` list in the raptor-module route metrics. -/
structure SegmentoRuta where
  nodo_inicio : ℕ
  nodo_fin : ℕ
  distancia : ℚ
  tiempo : ℚ
  tipo_infraestructura : ℤ
  pendiente : ℚ
deriving DecidableEq, Repr

/-- The dictionary `RuteadorCicloviasSPCCM._calcular_metricas_ruta`
returns for a route of at least two nodes. -/
structure MetricasRuta where
  distancia_total : ℚ
  tiempo_total : ℚ
  num_segmentos : ℕ
  porcentaje_infra_segura : ℚ
  segmentos : List SegmentoRuta
deriving DecidableEq, Repr

/-- Local accumulators of the metrics loop (`distancia_total`,
`tiempo_total`, `segmentos`, `tipos_infraestructura`). -/
structure AcumMetricasRuta where
  distancia_total : ℚ
  tiempo_total : ℚ
  segmentos : List SegmentoRuta
  tipos_infraestructura : List ℤ
deriving DecidableEq, Repr

/-- Body of the per-hop loop in the raptor route metrics: a hop with no
matching edge contributes nothing. -/
def pasoMetricasRuta (velocidad_bicicleta : ℚ) (red : List Enlace)
    (acc : AcumMetricasRuta) (p : ℕ × ℕ) : AcumMetricasRuta :=
  match obtener_enlace_entre_nodos p.1 p.2 red with
  | some enlace =>
    let tiempo_segmento := enlace.longitud / 1000 / velocidad_bicicleta * 60
    ⟨acc.distancia_total + enlace.longitud,
     acc.tiempo_total + tiempo_segmento,
     acc.segmentos ++ [⟨p.1, p.2, enlace.longitud, tiempo_segmento,
       enlace.tipo_infraestructura.getD 3, enlace.pendiente.getD 0⟩],
     acc.tipos_infraestructura ++ [enlace.tipo_infraestructura.getD 3]⟩
  | none => acc

/-- `RuteadorCicloviasSPCCM._calcular_metricas_ruta`: `none` models the
empty dictionary returned for routes of fewer than two nodes;
`porcentaje_infra_segura` is the share of matched segments with
infrastructure type 1 or 2, or 0 when no segment matched. -/
def calcular_metricas_ruta_r (velocidad_bicicleta : ℚ) (red : List Enlace)
    (ruta : List ℕ) : Option MetricasRuta :=
  if ruta.length < 2 then none
  else
    let acc := (paresConsecutivos ruta).foldl
      (pasoMetricasRuta velocidad_bicicleta red) ⟨0, 0, [], []⟩
    let infra_segura := acc.tipos_infraestructura.filter (fun t => t == 1 || t == 2)
    let pct_infra_segura : ℚ :=
      if acc.tipos_infraestructura.isEmpty then 0
      else ((infra_segura.length : ℚ) / (acc.tipos_infraestructura.length : ℚ)) * 100
    some ⟨acc.distancia_total, acc.tiempo_total, acc.segmentos.length,
      pct_infra_segura, acc.segmentos⟩

/-- The safe-infrastructure share the callers observe:
`metricas.get('porcentaje_infra_segura', 0)`, 0 for the empty record. -/
def porcentajeReportado (m : Option MetricasRuta) : ℚ :=
  match m with
  | none => 0
  | some r => r.porcentaje_infra_segura

theorem tipos_eq_map_segmentos (velocidad_bicicleta : ℚ) (red : List Enlace) :
    ∀ (pares : List (ℕ × ℕ)) (acc : AcumMetricasRuta),
      acc.tipos_infraestructura = acc.segmentos.map (·.tipo_infraestructura) →
      (pares.foldl (pasoMetricasRuta velocidad_bicicleta red) acc).tipos_infraestructura =
        (pares.foldl (pasoMetricasRuta velocidad_bicicleta red) acc).segmentos.map
          (·.tipo_infraestructura) := by
  intro pares
  induction pares with
  | nil => intro acc h; exact h
  | cons p ps ih =>
    intro acc h
    apply ih
    unfold pasoMetricasRuta
    cases hob : obtener_enlace_entre_nodos p.1 p.2 red with
    | none => exact h
    | some enlace => simp [h]

theorem pct_infra_cota (t : List ℤ) :
    0 ≤ (if t.isEmpty then (0 : ℚ)
      else ((t.filter (fun x => x == 1 || x == 2)).length : ℚ) / (t.length : ℚ) * 100) ∧
    (if t.isEmpty then (0 : ℚ)
      else ((t.filter (fun x => x == 1 || x == 2)).length : ℚ) / (t.length : ℚ) * 100)
      ≤ 100 := by
  by_cases ht : t.isEmpty
  · simp [ht]
  · rw [if_neg ht]
    have hne : t ≠ [] := by simpa [List.isEmpty_iff] using ht
    have hlen : 0 < (t.length : ℚ) := by
      exact_mod_cast List.length_pos.mpr hne
    constructor
    · positivity
    · have hle : ((t.filter (fun x => x == 1 || x == 2)).length : ℚ) ≤ (t.length : ℚ) := by
        exact_mod_cast List.length_filter_le _ t
      have hdiv : ((t.filter (fun x => x == 1 || x == 2)).length : ℚ) / (t.length : ℚ) ≤ 1 :=
        div_le_one_of_le₀ hle (le_of_lt hlen)
      nlinarith

theorem pct_infra_formula (s : List SegmentoRuta) :
    (if (s.map (·.tipo_infraestructura)).isEmpty then (0 : ℚ)
      else (((s.map (·.tipo_infraestructura)).filter
          (fun x => x == 1 || x == 2)).length : ℚ) /
        ((s.map (·.tipo_infraestructura)).length : ℚ) * 100) =
    (if s.length = 0 then (0 : ℚ)
      else 100 * ((s.filter (fun x =>
          x.tipo_infraestructura == 1 || x.tipo_infraestructura == 2)).length : ℚ) /
        (s.length : ℚ)) := by
  by_cases hs : s = []
  · subst hs; simp
  · rw [if_neg (by simp [List.isEmpty_iff, hs]), if_neg (by simp [hs])]
    rw [List.filter_map, List.length_map, List.length_map]
    have hfil : List.filter ((fun x => x == 1 || x == 2) ∘
        fun x : SegmentoRuta => x.tipo_infraestructura) s =
        List.filter (fun x =>
          x.tipo_infraestructura == 1 || x.tipo_infraestructura == 2) s := rfl
    rw [hfil]
    ring

/-- `.get('porcentaje_infra_segura', 0)` applied to a HELPER-module route
metrics dictionary (this is how `transit_stats.py` reads optimization
results): `SistemaOptimizacionCiclovias._calcular_metricas_ruta` builds
its dictionary from `distancia_total`, `num_segmentos` and `segmentos`
only, so the key is never present and the read always falls back to the
default 0. -/
def porcentajeReportadoHelper (_metricas : Option MetricasH) : ℚ := 0

/-- Claim C8 (amended theorem): the RAPTOR route metrics report
safe_infra_pct = 100 × (matched segments with infra type 1 or 2) /
(matched segments), 0 when no segment matched (and when the route is
shorter than two nodes, whose empty record reads back as 0 through
`.get('porcentaje_infra_segura', 0)`), always within [0, 100]; but the
HELPER route metrics contain no safe-infrastructure field at all, so the
same `.get` read yields 0 for every graph and every route, whatever its
infrastructure. -/
theorem porcentaje_infra_segura_correcto (velocidad_bicicleta : ℚ)
    (red : List Enlace) (ruta : List ℕ) :
    (0 ≤ porcentajeReportado (calcular_metricas_ruta_r velocidad_bicicleta red ruta) ∧
     porcentajeReportado (calcular_metricas_ruta_r velocidad_bicicleta red ruta) ≤ 100 ∧
     ∀ r, calcular_metricas_ruta_r velocidad_bicicleta red ruta = some r →
       r.porcentaje_infra_segura =
         (if r.segmentos.length = 0 then (0 : ℚ)
          else 100 * ((r.segmentos.filter (fun x =>
              x.tipo_infraestructura == 1 || x.tipo_infraestructura == 2)).length : ℚ) /
            (r.segmentos.length : ℚ))) ∧
    ∀ (g : Grafo) (ruta_h : List ℕ),
      porcentajeReportadoHelper (calcular_metricas_ruta_h g ruta_h) = 0 := by
  constructor
  · unfold calcular_metricas_ruta_r
    by_cases hlen : ruta.length < 2
    · rw [if_pos hlen]
      refine ⟨le_refl 0, by norm_num [porcentajeReportado], ?_⟩
      intro r hr
      exact absurd hr (by simp)
    · rw [if_neg hlen]
      have hmap := tipos_eq_map_segmentos velocidad_bicicleta red
        (paresConsecutivos ruta) ⟨0, 0, [], []⟩ rfl
      set acc := (paresConsecutivos ruta).foldl
        (pasoMetricasRuta velocidad_bicicleta red) ⟨0, 0, [], []⟩ with hacc
      refine ⟨?_, ?_, ?_⟩
      · simpa [porcentajeReportado] using (pct_infra_cota acc.tipos_infraestructura).1
      · simpa [porcentajeReportado] using (pct_infra_cota acc.tipos_infraestructura).2
      · intro r hr
        simp only [Option.some.injEq] at hr
        subst hr
        simp only
        rw [hmap]
        exact pct_infra_formula acc.segmentos
  · intro g ruta_h
    rfl

/-- A one-edge network for the claim C8 scenarios: nodes 1-2, 1000 m,
segregated infrastructure. -/
def redEjemplo : List Enlace := [⟨1, 2, 1000, some 1, none, none, none⟩]

/-- The metrics record the raptor module computes for the route `[1, 2]`
over `redEjemplo` at 15 km/h. -/
def registroEjemplo : MetricasRuta := ⟨1000, 4, 1, 100, [⟨1, 2, 1000, 4, 1, 0⟩]⟩

/-- The helper-module graph holding the same physical segment as
`redEjemplo`: the directed edge 1→2 carries the impedance weight (4
minutes) and length (1000 m); helper graph edges carry no infrastructure
attribute. -/
def gSeguro : Grafo := ⟨[(1, [⟨2, .fin 4, 1000⟩]), (2, [])]⟩

/-- Claim C8 (counterexample): for the route `[1, 2]`, entirely on a
segregated (type 1) segment, the helper-module metrics record carries only
`distancia_total`, `num_segmentos` and `segmentos` — no safe-infrastructure
field — so its readers' `.get('porcentaje_infra_segura', 0)` yields 0,
while the claimed formula (and the raptor metrics on the same segment)
gives 100·1/1 = 100. -/
theorem metricas_helper_sin_porcentaje_contraejemplo :
    calcular_metricas_ruta_h gSeguro [1, 2] =
      some ⟨1000, 1, [⟨1, 2, WQ.fin 4⟩]⟩ ∧
    porcentajeReportadoHelper (calcular_metricas_ruta_h gSeguro [1, 2]) = 0 ∧
    porcentajeReportado (calcular_metricas_ruta_r 15 redEjemplo [1, 2]) = 100 ∧
    (0 : ℚ) ≠ 100 := by
  refine ⟨?_, rfl, ?_, by norm_num⟩
  · norm_num [calcular_metricas_ruta_h, paresConsecutivos, Grafo.datosArista,
      Grafo.vecinos, gSeguro, List.find?]
  · norm_num [porcentajeReportado, calcular_metricas_ruta_r, paresConsecutivos,
      pasoMetricasRuta, obtener_enlace_entre_nodos, redEjemplo, List.find?,
      List.filter]

/-- Claim C8 (witness): the amended theorem applied to the concrete
one-segment raptor route, whose safe-infrastructure share is 100. -/
theorem porcentaje_infra_segura_correcto_witness :
    calcular_metricas_ruta_r 15 redEjemplo [1, 2] = some registroEjemplo ∧
    registroEjemplo.porcentaje_infra_segura =
      (if registroEjemplo.segmentos.length = 0 then (0 : ℚ)
       else 100 * ((registroEjemplo.segmentos.filter (fun x =>
           x.tipo_infraestructura == 1 || x.tipo_infraestructura == 2)).length : ℚ) /
         (registroEjemplo.segmentos.length : ℚ)) := by
  have h : calcular_metricas_ruta_r 15 redEjemplo [1, 2] = some registroEjemplo := by
    norm_num [calcular_metricas_ruta_r, paresConsecutivos, pasoMetricasRuta,
      obtener_enlace_entre_nodos, redEjemplo, registroEjemplo, List.find?,
      List.filter]
  exact ⟨h, (porcentaje_infra_segura_correcto 15 redEjemplo [1, 2]).1.2.2
    registroEjemplo h⟩

/-- Stable insertion into a list sorted descending by `clave`: the new
element goes after existing elements with an equal or larger key,
modelling the stability of Python's `sorted(..., reverse=True)`. -/
def insertarDescPor {α : Type} (clave : α → ℚ) (x : α) : List α → List α
  | [] => [x]
  | y :: ys => if clave y < clave x then x :: y :: ys else y :: insertarDescPor clave x ys

/-- Stable sort, descending by `clave`. -/
def ordenarDescPor {α : Type} (clave : α → ℚ) (l : List α) : List α :=
  l.foldl (fun acc x => insertarDescPor clave x acc) []

theorem insertarDescPor_mem {α : Type} (clave : α → ℚ) (x : α) :
    ∀ (l : List α) (z : α), z ∈ insertarDescPor clave x l → z = x ∨ z ∈ l := by
  intro l
  induction l with
  | nil =>
    intro z hz
    simp only [insertarDescPor, List.mem_singleton] at hz
    exact Or.inl hz
  | cons y ys ih =>
    intro z hz
    simp only [insertarDescPor] at hz
    by_cases hc : clave y < clave x
    · rw [if_pos hc] at hz
      rcases List.mem_cons.mp hz with rfl | hz2
      · exact Or.inl rfl
      · exact Or.inr hz2
    · rw [if_neg hc] at hz
      rcases List.mem_cons.mp hz with rfl | hz2
      · exact Or.inr (List.mem_cons_self _ _)
      · rcases ih z hz2 with h | h
        · exact Or.inl h
        · exact Or.inr (List.mem_cons_of_mem _ h)

theorem insertarDescPor_pairwise {α : Type} (clave : α → ℚ) (x : α) :
    ∀ (l : List α), l.Pairwise (fun a b => clave b ≤ clave a) →
      (insertarDescPor clave x l).Pairwise (fun a b => clave b ≤ clave a) := by
  intro l
  induction l with
  | nil => intro _; simp [insertarDescPor]
  | cons y ys ih =>
    intro h
    rw [List.pairwise_cons] at h
    obtain ⟨h1, h2⟩ := h
    simp only [insertarDescPor]
    by_cases hc : clave y < clave x
    · rw [if_pos hc]
      refine List.Pairwise.cons ?_ (List.Pairwise.cons h1 h2)
      intro z hz
      rcases List.mem_cons.mp hz with rfl | hz2
      · exact le_of_lt hc
      · exact le_trans (h1 z hz2) (le_of_lt hc)
    · rw [if_neg hc]
      refine List.Pairwise.cons ?_ (ih h2)
      intro z hz
      rcases insertarDescPor_mem clave x ys z hz with rfl | hz2
      · exact le_of_not_lt hc
      · exact h1 z hz2

theorem ordenarDescPor_pairwise {α : Type} (clave : α → ℚ) (l : List α) :
    (ordenarDescPor clave l).Pairwise (fun a b => clave b ≤ clave a) := by
  suffices h : ∀ (l acc : List α), acc.Pairwise (fun a b => clave b ≤ clave a) →
      (l.foldl (fun acc x => insertarDescPor clave x acc) acc).Pairwise
        (fun a b => clave b ≤ clave a) by
    exact h l [] (by simp)
  intro l
  induction l with
  | nil => intro acc h; exact h
  | cons x xs ih => intro acc h; exact ih _ (insertarDescPor_pairwise clave x acc h)

/-- One step of the frequency tally in
`AnalizadorEstadisticoCiclovias._identificar_corredores_prioritarios`:
a Python dict keyed by the ORDERED pair `(nodo_inicio, nodo_fin)`,
modelled as an insertion-ordered association list. -/
def contarSegmento (frecuencia_segmentos : List ((ℕ × ℕ) × ℕ)) (arco : ℕ × ℕ) :
    List ((ℕ × ℕ) × ℕ) :=
  if frecuencia_segmentos.any (fun kv => kv.1 == arco) then
    frecuencia_segmentos.map (fun kv =>
      if kv.1 == arco then (kv.1, kv.2 + 1) else kv)
  else frecuencia_segmentos ++ [(arco, 1)]

/-- `AnalizadorEstadisticoCiclovias._identificar_corredores_prioritarios`:
tally each traversed segment by its ordered node pair, sort by frequency
descending (Python's stable `sorted` with `reverse=True`), keep the top
ten, return the node pairs. -/
def identificar_corredores_prioritarios (resultados : List (List SegmentoH)) :
    List (ℕ × ℕ) :=
  let frecuencia_segmentos := resultados.foldl
    (fun frec segmentos => segmentos.foldl
      (fun frec s => contarSegmento frec (s.nodo_inicio, s.nodo_fin)) frec) []
  ((ordenarDescPor (fun kv => (kv.2 : ℚ)) frecuencia_segmentos).take 10).map (·.1)

/-- Claim C7 (counterexample): a segment traversed once as (1,2) and once
as (2,1) yields TWO corridor entries, not one entry keyed by the
unordered pair — opposite directions do not accumulate together. -/
theorem corredores_direccion_contraejemplo :
    identificar_corredores_prioritarios [[⟨1, 2, .fin 0⟩], [⟨2, 1, .fin 0⟩]] =
      [(1, 2), (2, 1)] ∧
    (identificar_corredores_prioritarios
      [[⟨1, 2, .fin 0⟩], [⟨2, 1, .fin 0⟩]]).length ≠ 1 := by
  constructor
  · norm_num [identificar_corredores_prioritarios, contarSegmento,
      ordenarDescPor, insertarDescPor]
  · norm_num [identificar_corredores_prioritarios, contarSegmento,
      ordenarDescPor, insertarDescPor]

/-- One entry of a route's `segmentos_detalle` list as
`generar_mapa_corredores_prioritarios` reads it: the `arco` key (an
ordered node pair), the segment impedance and the infrastructure type. -/
structure SegmentoDetalle where
  arco : ℕ × ℕ
  impedancia : ℚ
  tipo_infraestructura : ℤ
deriving DecidableEq, Repr

/-- Value stored in the `segmentos_utilizados` dictionary. -/
structure DatosSegmento where
  frecuencia : ℕ
  impedancia_acumulada : ℚ
  tipo_infraestructura : ℤ
deriving DecidableEq, Repr

/-- One step of the usage tally in
`MapeadorRutasCiclovias.generar_mapa_corredores_prioritarios`: keyed by
the ORDERED `arco` pair; repeat visits bump the frequency and accumulate
impedance, the infrastructure type of the first visit is kept. -/
def agregarSegmentoUtilizado (segmentos_utilizados : List ((ℕ × ℕ) × DatosSegmento))
    (s : SegmentoDetalle) : List ((ℕ × ℕ) × DatosSegmento) :=
  if segmentos_utilizados.any (fun kv => kv.1 == s.arco) then
    segmentos_utilizados.map (fun kv =>
      if kv.1 == s.arco then
        (kv.1, ⟨kv.2.frecuencia + 1, kv.2.impedancia_acumulada + s.impedancia,
          kv.2.tipo_infraestructura⟩)
      else kv)
  else segmentos_utilizados ++ [(s.arco, ⟨1, s.impedancia, s.tipo_infraestructura⟩)]

/-- One row of the corridor GeoDataFrame (the external geometry payload is
not modelled; `geometria` below stands for the truthiness of the external
lookup). -/
structure Corredor where
  nodo_inicio : ℕ
  nodo_fin : ℕ
  frecuencia_uso : ℕ
  impedancia_promedio : ℚ
  prioridad_inversion : ℚ
  tipo_infraestructura : ℤ
deriving DecidableEq, Repr

/-- One output row built from a tally entry: `prioridad = frecuencia ×
impedancia acumulada` (the local `prioridad` of the source loop) and
`impedancia_promedio = acumulada / frecuencia`. -/
def filaCorredor (kv : (ℕ × ℕ) × DatosSegmento) : Corredor :=
  ⟨kv.1.1, kv.1.2, kv.2.frecuencia,
    kv.2.impedancia_acumulada / (kv.2.frecuencia : ℚ),
    (kv.2.frecuencia : ℚ) * kv.2.impedancia_acumulada,
    kv.2.tipo_infraestructura⟩

/-- Body of the `corredores_data` loop: a tally entry contributes a row
only when its geometry lookup succeeds. -/
def pasoCorredor (geometria : ℕ → ℕ → Bool) (acc : List Corredor)
    (kv : (ℕ × ℕ) × DatosSegmento) : List Corredor :=
  if geometria kv.1.1 kv.1.2 then acc ++ [filaCorredor kv] else acc

/-- The `corredores_data` loop: one row per tally entry whose geometry
lookup succeeds. -/
def construirCorredores (geometria : ℕ → ℕ → Bool)
    (segmentos_utilizados : List ((ℕ × ℕ) × DatosSegmento)) : List Corredor :=
  segmentos_utilizados.foldl (pasoCorredor geometria) []

/-- `MapeadorRutasCiclovias.generar_mapa_corredores_prioritarios`: tally
segment usage keyed by the ordered `arco`, build one row per key whose
geometry lookup succeeds, then sort by `prioridad_inversion`
descending. -/
def generar_mapa_corredores_prioritarios (geometria : ℕ → ℕ → Bool)
    (rutas : List (List SegmentoDetalle)) : List Corredor :=
  let segmentos_utilizados := rutas.foldl
    (fun m segmentos_detalle => segmentos_detalle.foldl agregarSegmentoUtilizado m) []
  ordenarDescPor (·.prioridad_inversion) (construirCorredores geometria segmentos_utilizados)

theorem ordenarDescPor_mem {α : Type} (clave : α → ℚ) :
    ∀ (l acc : List α) (z : α),
      z ∈ l.foldl (fun acc x => insertarDescPor clave x acc) acc →
      z ∈ acc ∨ z ∈ l := by
  intro l
  induction l with
  | nil => intro acc z hz; exact Or.inl hz
  | cons x xs ih =>
    intro acc z hz
    rcases ih _ z hz with h | h
    · rcases insertarDescPor_mem clave x acc z h with rfl | h2
      · exact Or.inr (List.mem_cons_self _ _)
      · exact Or.inl h2
    · exact Or.inr (List.mem_cons_of_mem _ h)

theorem agregarSegmentoUtilizado_frecuencia
    (segmentos_utilizados : List ((ℕ × ℕ) × DatosSegmento)) (s : SegmentoDetalle)
    (h : ∀ kv ∈ segmentos_utilizados, 1 ≤ kv.2.frecuencia) :
    ∀ kv ∈ agregarSegmentoUtilizado segmentos_utilizados s, 1 ≤ kv.2.frecuencia := by
  intro kv hkv
  unfold agregarSegmentoUtilizado at hkv
  by_cases hc : segmentos_utilizados.any (fun kv => kv.1 == s.arco)
  · rw [if_pos hc] at hkv
    rcases List.mem_map.mp hkv with ⟨kv0, hkv0, hmap⟩
    by_cases he : (kv0.1 == s.arco) = true
    · rw [if_pos he] at hmap
      rw [← hmap]
      exact Nat.le_add_left 1 kv0.2.frecuencia
    · rw [if_neg he] at hmap
      rw [← hmap]
      exact h kv0 hkv0
  · rw [if_neg hc] at hkv
    rcases List.mem_append.mp hkv with h2 | h2
    · exact h kv h2
    · rw [List.mem_singleton] at h2
      rw [h2]

theorem foldl_agregar_frecuencia (segmentos_detalle : List SegmentoDetalle) :
    ∀ (m : List ((ℕ × ℕ) × DatosSegmento)), (∀ kv ∈ m, 1 ≤ kv.2.frecuencia) →
      ∀ kv ∈ segmentos_detalle.foldl agregarSegmentoUtilizado m,
        1 ≤ kv.2.frecuencia := by
  induction segmentos_detalle with
  | nil => intro m h; exact h
  | cons s resto ih =>
    intro m h
    exact ih _ (agregarSegmentoUtilizado_frecuencia m s h)

theorem segmentos_utilizados_frecuencia (rutas : List (List SegmentoDetalle)) :
    ∀ (m : List ((ℕ × ℕ) × DatosSegmento)), (∀ kv ∈ m, 1 ≤ kv.2.frecuencia) →
      ∀ kv ∈ rutas.foldl
        (fun m segmentos_detalle => segmentos_detalle.foldl agregarSegmentoUtilizado m) m,
        1 ≤ kv.2.frecuencia := by
  induction rutas with
  | nil => intro m h; exact h
  | cons segmentos_detalle resto ih =>
    intro m h
    exact ih _ (foldl_agregar_frecuencia segmentos_detalle m h)

/-- The per-row priority identity, stated on the output fields: since
`impedancia_promedio = acumulada / frecuencia` with `frecuencia ≥ 1`,
`prioridad = frecuencia × (impedancia_promedio × frecuencia)` recovers
`frecuencia × impedancia acumulada`. -/
def PrioridadCorrecta (c : Corredor) : Prop :=
  c.prioridad_inversion =
    (c.frecuencia_uso : ℚ) * (c.impedancia_promedio * (c.frecuencia_uso : ℚ)) ∧
  1 ≤ c.frecuencia_uso

theorem construirCorredores_prioridad (geometria : ℕ → ℕ → Bool)
    (segmentos_utilizados : List ((ℕ × ℕ) × DatosSegmento))
    (hfrec : ∀ kv ∈ segmentos_utilizados, 1 ≤ kv.2.frecuencia) :
    ∀ c ∈ construirCorredores geometria segmentos_utilizados, PrioridadCorrecta c := by
  unfold construirCorredores
  suffices h : ∀ (lst : List ((ℕ × ℕ) × DatosSegmento)),
      (∀ kv ∈ lst, 1 ≤ kv.2.frecuencia) →
      ∀ (acc : List Corredor), (∀ c ∈ acc, PrioridadCorrecta c) →
      ∀ c ∈ lst.foldl (pasoCorredor geometria) acc, PrioridadCorrecta c by
    exact h segmentos_utilizados hfrec [] (by simp)
  intro lst
  induction lst with
  | nil => intro _ acc hacc; exact hacc
  | cons kv resto ih =>
    intro hlst acc hacc
    apply ih (fun x hx => hlst x (List.mem_cons_of_mem _ hx))
    intro c hc
    simp only [pasoCorredor] at hc
    by_cases hg : geometria kv.1.1 kv.1.2
    · rw [if_pos hg] at hc
      rcases List.mem_append.mp hc with h2 | h2
      · exact hacc c h2
      · rw [List.mem_singleton] at h2
        subst h2
        have hfreq : 1 ≤ kv.2.frecuencia := hlst kv (List.mem_cons_self _ _)
        have hfq : ((kv.2.frecuencia : ℚ)) ≠ 0 := by
          have hpos : (0 : ℚ) < (kv.2.frecuencia : ℚ) := by exact_mod_cast hfreq
          exact ne_of_gt hpos
        constructor
        · show (kv.2.frecuencia : ℚ) * kv.2.impedancia_acumulada =
            (kv.2.frecuencia : ℚ) *
              (kv.2.impedancia_acumulada / (kv.2.frecuencia : ℚ) * (kv.2.frecuencia : ℚ))
          field_simp
        · exact hfreq
    · rw [if_neg hg] at hc
      exact hacc c hc

/-- Claim C7 (amended theorem): the corridor map is sorted by
`prioridad_inversion` non-increasing for every input; every row carries
`prioridad = frecuencia × impedancia acumulada` (equivalently, recovered
from the stored mean as `frecuencia × (promedio × frecuencia)`, with
`frecuencia ≥ 1`); but traversals of the same physical segment in opposite
directions produce SEPARATE entries keyed by the ordered pair: on the
concrete input with one (1,2) and one (2,1) traversal the output has two
rows, (2,1) first with priority 7 and (1,2) second with priority 5. -/
theorem corredores_ordenados_por_prioridad :
    (∀ (geometria : ℕ → ℕ → Bool) (rutas : List (List SegmentoDetalle)),
      (generar_mapa_corredores_prioritarios geometria rutas).Pairwise
        (fun a b => b.prioridad_inversion ≤ a.prioridad_inversion)) ∧
    (∀ (geometria : ℕ → ℕ → Bool) (rutas : List (List SegmentoDetalle)),
      ∀ c ∈ generar_mapa_corredores_prioritarios geometria rutas,
        PrioridadCorrecta c) ∧
    generar_mapa_corredores_prioritarios (fun _ _ => true)
        [[⟨(1, 2), 5, 1⟩], [⟨(2, 1), 7, 1⟩]] =
      [⟨2, 1, 1, 7, 7, 1⟩, ⟨1, 2, 1, 5, 5, 1⟩] := by
  refine ⟨?_, ?_, ?_⟩
  · intro geometria rutas
    exact ordenarDescPor_pairwise _ _
  · intro geometria rutas c hc
    simp only [generar_mapa_corredores_prioritarios, ordenarDescPor] at hc
    rcases ordenarDescPor_mem (·.prioridad_inversion) _ [] c hc with h | h
    · exact absurd h (List.not_mem_nil c)
    · exact construirCorredores_prioridad geometria _
        (segmentos_utilizados_frecuencia rutas [] (by simp)) c h
  · norm_num [generar_mapa_corredores_prioritarios, construirCorredores,
      pasoCorredor, filaCorredor, agregarSegmentoUtilizado, ordenarDescPor,
      insertarDescPor]

/-- Claim C7 (witness): the membership part of the amended theorem applied
to the first row of the concrete corridor map: its priority 7 equals
1 × (7 × 1) and its frequency is 1. -/
theorem corredores_ordenados_por_prioridad_witness :
    PrioridadCorrecta ⟨2, 1, 1, 7, 7, 1⟩ :=
  corredores_ordenados_por_prioridad.2.1 (fun _ _ => true)
    [[⟨(1, 2), 5, 1⟩], [⟨(2, 1), 7, 1⟩]] ⟨2, 1, 1, 7, 7, 1⟩
    (by rw [corredores_ordenados_por_prioridad.2.2]; exact List.mem_cons_self _ _)
